import Mathlib

/-
Shallow embedding of the symjit-bridge core (src/lib.rs, src/runners.rs).

The machine scalar `f64` is modelled by an arbitrary type parameter `R`:
none of the bridge's own logic computes with scalar values, it only moves
them around, so every definition is polymorphic in `R` and witnesses
instantiate `R := Int`.

External collaborators (the symjit `Translator`/`Application`/`Config` and
the symbolica `ExpressionEvaluator`) are modelled from their interface
contracts in the spec: the builder is an append-only trace of calls whose
per-call success is decided by an oracle, and the compiled artifact carries
its metadata plus opaque batch-execution primitives as function fields.
-/

namespace SymjitBridge

/-- The four storage classes of the slot addressing scheme. -/
inductive SlotKind where
  | param
  | out
  | const
  | temp
deriving DecidableEq, Repr

namespace compiler

/-- Target slot type of the code generator (symjit `compiler::Slot`). -/
inductive Slot where
  | Param (id : Nat)
  | Out (id : Nat)
  | Const (id : Nat)
  | Temp (id : Nat)
deriving DecidableEq, Repr

/-- Storage class of a target slot. -/
def Slot.kind : Slot → SlotKind
  | .Param _ => .param
  | .Out _ => .out
  | .Const _ => .const
  | .Temp _ => .temp

/-- Numeric index of a target slot. -/
def Slot.index : Slot → Nat
  | .Param id => id
  | .Out id => id
  | .Const id => id
  | .Temp id => id

/-- Target builtin-symbol representation (symjit `compiler::BuiltinSymbol`),
a tuple struct wrapping the numeric symbol id. -/
structure BuiltinSymbol where
  val : Nat
deriving DecidableEq, Repr

end compiler

/-- Source slot type of the expression evaluator (symbolica `Slot`). -/
inductive Slot where
  | Param (id : Nat)
  | Out (id : Nat)
  | Const (id : Nat)
  | Temp (id : Nat)
deriving DecidableEq, Repr

/-- Storage class of a source slot. -/
def Slot.kind : Slot → SlotKind
  | .Param _ => .param
  | .Out _ => .out
  | .Const _ => .const
  | .Temp _ => .temp

/-- Numeric index of a source slot. -/
def Slot.index : Slot → Nat
  | .Param id => id
  | .Out id => id
  | .Const id => id
  | .Temp id => id

/-- An evaluator symbol; only its numeric id is observed by the bridge. -/
structure Symbol where
  id : Nat
deriving DecidableEq, Repr

/-- Accessor mirroring symbolica `Symbol::get_id`. -/
def Symbol.get_id (s : Symbol) : Nat := s.id

/-- Source builtin-symbol representation (symbolica `BuiltinSymbol`). -/
structure BuiltinSymbol where
  symbol : Symbol
deriving DecidableEq, Repr

/-- Accessor mirroring symbolica `BuiltinSymbol::get_symbol`. -/
def BuiltinSymbol.get_symbol (s : BuiltinSymbol) : Symbol := s.symbol

/-- Complex number over the scalar stand-in `R`; mirrors `num_complex::Complex<f64>`
(in memory: the real part followed by the imaginary part). -/
structure Complex (R : Type) where
  re : R
  im : R
deriving DecidableEq, Repr

/-- The slot mapper of src/lib.rs (`fn slot`): exhaustive match re-tagging each
source slot as the target slot with the same class and index. -/
def slot : Slot → compiler.Slot
  | .Param id => .Param id
  | .Out id => .Out id
  | .Const id => .Const id
  | .Temp id => .Temp id

/-- The list mapper of src/lib.rs (`fn slot_list`): element-wise `slot` via map/collect. -/
def slot_list (v : List Slot) : List compiler.Slot :=
  v.map slot

/-- The builtin-symbol re-tag of src/lib.rs (`fn builtin_symbol`). -/
def builtin_symbol (s : BuiltinSymbol) : compiler.BuiltinSymbol :=
  ⟨s.get_symbol.get_id⟩

/-- Configuration of the code generator, modelled from spec §3: the recognized
options are `complex`, `simd` and `use_threads` (symjit `Config` is external
to this repository; only these accessors are used by the bridge). -/
structure Config where
  complex : Bool
  simd : Bool
  threads : Bool
deriving DecidableEq, Repr

/-- Setter mirroring `Config::set_complex`. -/
def Config.set_complex (c : Config) (b : Bool) : Config :=
  { c with complex := b }

/-- Setter mirroring `Config::set_simd`. -/
def Config.set_simd (c : Config) (b : Bool) : Config :=
  { c with simd := b }

/-- Accessor mirroring `Config::use_threads`. -/
def Config.use_threads (c : Config) : Bool :=
  c.threads

/-- The evaluator's instruction set (symbolica `Instruction`), one variant per
opcode, exactly the variants matched by `translate` in src/lib.rs. -/
inductive Instruction where
  | Add (lhs : Slot) (args : List Slot) (num_reals : Nat)
  | Mul (lhs : Slot) (args : List Slot) (num_reals : Nat)
  | Pow (lhs : Slot) (arg : Slot) (p : Int) (is_real : Bool)
  | Powf (lhs : Slot) (arg : Slot) (p : Slot) (is_real : Bool)
  | Assign (lhs : Slot) (rhs : Slot)
  | Fun (lhs : Slot) (f : BuiltinSymbol) (arg : Slot) (is_real : Bool)
  | Join (lhs : Slot) (cond : Slot) (true_val : Slot) (false_val : Slot)
  | Label (id : Nat)
  | IfElse (cond : Slot) (id : Nat)
  | Goto (id : Nat)
  | ExternalFun (lhs : Slot) (op : String) (args : List Slot)
deriving DecidableEq, Repr

/-- One call against the external append-only builder (spec §6): one
`append_constant` form plus one `append_*` form per opcode kind, recorded with
the exact arguments the bridge passes. -/
inductive BuilderCall (R : Type) where
  | append_constant (z : Complex R)
  | append_add (lhs : compiler.Slot) (args : List compiler.Slot) (num_reals : Nat)
  | append_mul (lhs : compiler.Slot) (args : List compiler.Slot) (num_reals : Nat)
  | append_pow (lhs : compiler.Slot) (arg : compiler.Slot) (p : Int) (is_real : Bool)
  | append_powf (lhs : compiler.Slot) (arg : compiler.Slot) (p : compiler.Slot) (is_real : Bool)
  | append_assign (lhs : compiler.Slot) (rhs : compiler.Slot)
  | append_fun (lhs : compiler.Slot) (f : compiler.BuiltinSymbol) (arg : compiler.Slot)
      (is_real : Bool)
  | append_join (lhs : compiler.Slot) (cond : compiler.Slot) (true_val : compiler.Slot)
      (false_val : compiler.Slot)
  | append_label (id : Nat)
  | append_if_else (cond : compiler.Slot) (id : Nat)
  | append_goto (id : Nat)
  | append_external_fun (lhs : compiler.Slot) (op : String) (args : List compiler.Slot)
deriving DecidableEq, Repr

/-- The external symjit `Translator` builder, modelled as its configuration plus
the trace of builder calls successfully appended so far. -/
structure Translator (R : Type) where
  config : Config
  calls : List (BuilderCall R)
deriving DecidableEq, Repr

/-- Constructor mirroring `Translator::new(config)`: empty builder scoped to `config`. -/
def Translator.new (R : Type) (config : Config) : Translator R :=
  { config := config, calls := [] }

/-- A builder-append failure, carrying the call that was rejected. -/
structure BuildError (R : Type) where
  failing : BuilderCall R
deriving DecidableEq, Repr

/-- One builder-append step: the external builder either accepts the call
(per the success oracle `ok`) and records it, or rejects it with an error.
Models the `?`-propagated fallibility of each `translator.append_*` call. -/
def appendCall (ok : BuilderCall R → Bool) (t : Translator R) (c : BuilderCall R) :
    Except (BuildError R) (Translator R) :=
  if ok c then .ok { t with calls := t.calls ++ [c] } else .error ⟨c⟩

/-- A `for`-loop that appends `f a` for each element `a` in order, aborting at
the first rejected call, as the `?` operator does in `translate`. -/
def appendMapped (ok : BuilderCall R → Bool) (f : α → BuilderCall R) :
    Translator R → List α → Except (BuildError R) (Translator R)
  | t, [] => .ok t
  | t, a :: rest =>
    match appendCall ok t (f a) with
    | .error e => .error e
    | .ok t2 => appendMapped ok f t2 rest

/-- The builder call issued for one instruction: the exhaustive opcode match of
`translate` in src/lib.rs, with every slot argument passed through `slot` /
`slot_list`, the builtin id through `builtin_symbol`, and every scalar field
unchanged. -/
def instructionCall : Instruction → BuilderCall R
  | .Add lhs args num_reals => .append_add (slot lhs) (slot_list args) num_reals
  | .Mul lhs args num_reals => .append_mul (slot lhs) (slot_list args) num_reals
  | .Pow lhs arg p is_real => .append_pow (slot lhs) (slot arg) p is_real
  | .Powf lhs arg p is_real => .append_powf (slot lhs) (slot arg) (slot p) is_real
  | .Assign lhs rhs => .append_assign (slot lhs) (slot rhs)
  | .Fun lhs f arg is_real => .append_fun (slot lhs) (builtin_symbol f) (slot arg) is_real
  | .Join lhs cond true_val false_val =>
      .append_join (slot lhs) (slot cond) (slot true_val) (slot false_val)
  | .Label id => .append_label id
  | .IfElse cond id => .append_if_else (slot cond) id
  | .Goto id => .append_goto id
  | .ExternalFun lhs op args => .append_external_fun (slot lhs) op (slot_list args)

/-- `translate` of src/lib.rs: build an empty translator for `config`, append
every constant in pool order, then one builder call per instruction in stream
order; any rejected append aborts immediately with the error. -/
def translate (ok : BuilderCall R → Bool) (instructions : List Instruction)
    (constants : List (Complex R)) (config : Config) :
    Except (BuildError R) (Translator R) :=
  let translator := Translator.new R config
  match appendMapped ok BuilderCall.append_constant translator constants with
  | .error e => .error e
  | .ok translator => appendMapped ok instructionCall translator instructions

/-- The `Number` capability of src/lib.rs: any coefficient type embeds into the
complex representation. -/
class Number (R : Type) (T : Type) where
  as_complex : T → Complex R

instance {R : Type} : Number R (Complex R) :=
  ⟨fun z => z⟩

instance {R : Type} [Zero R] : Number R R :=
  ⟨fun x => { re := x, im := 0 }⟩

/-- The external symbolica `ExpressionEvaluator`, reduced to what
`export_instructions` yields: the instruction stream, an opaque middle
component the bridge discards, and the constant pool. -/
structure ExpressionEvaluator (T : Type) where
  instructions : List Instruction
  exported_mid : Unit
  constants : List T

/-- Accessor mirroring `ExpressionEvaluator::export_instructions`, returning the
triple destructured as `(instructions, _, constants)` in `compile`. -/
def ExpressionEvaluator.export_instructions (ev : ExpressionEvaluator T) :
    List Instruction × Unit × List T :=
  (ev.instructions, ev.exported_mid, ev.constants)

/-- An error of the terminal code-generation step (`translator.compile()`). -/
inductive CompileError where
  | failure
deriving DecidableEq, Repr

/-- Outcome of a Rust call that can also abort by panicking: a returned `Ok`
value, a returned `Err` value, or a panic (as from `.unwrap()` on an `Err`). -/
inductive RustOutcome (ε : Type) (α : Type) where
  | ok (a : α)
  | err (e : ε)
  | panicked
deriving DecidableEq, Repr

/-- The program held by a compiled artifact; the bridge only reads its
configuration via `app.prog.config()`. -/
structure Prog where
  config : Config

/-- The external Compiled Artifact (symjit `Application`), modelled from spec
§3/§6: buffer-layout metadata (`count_params`, `count_obs`, both in real-slot
units), the program configuration, and the four opaque batch-execution
primitives as black-box functions from (flat args, flat outs, row count) to
the resulting flat outs. -/
structure Application (R : Type) where
  count_params : Nat
  count_obs : Nat
  prog : Prog
  evaluate_matrix_with_threads : List R → List R → Nat → List R
  evaluate_matrix_without_threads : List R → List R → Nat → List R
  evaluate_matrix_with_threads_simd : List R → List R → Nat → Bool → List R
  evaluate_matrix_without_threads_simd : List R → List R → Nat → Bool → List R

/-- `compile` of src/lib.rs: export the instruction stream and constants, map
each constant through `as_complex`, translate, and finish with the terminal
`translator.compile()` step (modelled by the oracle `tc`). The source calls
`translate(..).unwrap()`, so a translation error PANICS instead of being
returned; only terminal code-generation errors come back as `Err`. -/
def compile {R T : Type} [Number R T] (ok : BuilderCall R → Bool)
    (tc : Translator R → Except CompileError (Application R))
    (ev : ExpressionEvaluator T) (config : Config) :
    RustOutcome CompileError (Application R) :=
  let e := ev.export_instructions
  let instructions := e.1
  let constants := e.2.2.map (Number.as_complex (R := R))
  match translate ok instructions constants config with
  | .error _ => .panicked
  | .ok translator =>
    match tc translator with
    | .error err => .err err
    | .ok app => .ok app

/-- Which batch-execution primitive of the artifact an `evaluate` call invoked. -/
inductive Primitive where
  | with_threads
  | without_threads
  | with_threads_simd
  | without_threads_simd
deriving DecidableEq, Repr

/-- Result of one runner `evaluate` call: the primitive invoked together with
the resulting flat output buffer, an `assert!` failure, or a division-by-zero
panic (a zero `count_params`/`count_obs` makes the Rust `/` panic). -/
inductive EvalResult (R : Type) where
  | ok (p : Primitive) (outs : List R)
  | assertion_failure
  | division_panic
deriving DecidableEq, Repr

/-- `flatten_vec` / `flatten_vec_mut` of src/runners.rs: the unsafe
reinterpretation of a `&[T]` as a flat `&[f64]` view, modelled by an explicit
decomposition `enc` of each element into its in-memory sequence of scalar
words, concatenated in element order. -/
def flatten_vec (enc : T → List R) (v : List T) : List R :=
  (v.map enc).flatten

/-- The length computed by `flatten_vec` in the source:
`n * size_of::<T>() / size_of::<f64>()`, with `size_of::<f64>() = 8`. -/
def flatten_vec_len (n size_T : Nat) : Nat :=
  n * size_T / 8

/-- In-memory scalar words of a `Complex<f64>`: real part then imaginary part
(interleaved layout). -/
def Complex.words (z : Complex R) : List R :=
  [z.re, z.im]

/-- In-memory scalar words of a `Complex<T>` for a vector-lane type `T` whose
own words are given by `enc`: the words of the real part then those of the
imaginary part. -/
def Complex.vwords (enc : T → List R) (z : Complex T) : List R :=
  enc z.re ++ enc z.im

/-- The real scalar runner of src/runners.rs. -/
structure CompiledRealRunner (R : Type) where
  config : Config
  app : Application R

/-- `CompiledRealRunner::compile`: force `complex = false` and `simd = false`,
delegate to `compile`, store the mutated config with the artifact. -/
def CompiledRealRunner.compile {R : Type} [Zero R] (ok : BuilderCall R → Bool)
    (tc : Translator R → Except CompileError (Application R))
    (ev : ExpressionEvaluator R) (config : Config) :
    RustOutcome CompileError (CompiledRealRunner R) :=
  let config := (config.set_complex false).set_simd false
  match SymjitBridge.compile ok tc ev config with
  | .ok app => .ok { config := config, app := app }
  | .err e => .err e
  | .panicked => .panicked

/-- `CompiledRealRunner::evaluate`: row count `n = args.len() / count_params`,
assert `outs.len() / count_obs >= n`, then dispatch on `use_threads()` —
the source invokes `evaluate_matrix_without_threads` when `use_threads()` is
TRUE and `evaluate_matrix_with_threads` when it is false. -/
def CompiledRealRunner.evaluate (r : CompiledRealRunner R) (args outs : List R) :
    EvalResult R :=
  if r.app.count_params = 0 ∨ r.app.count_obs = 0 then .division_panic
  else
    let n := args.length / r.app.count_params
    if n ≤ outs.length / r.app.count_obs then
      if r.config.use_threads then
        .ok .without_threads (r.app.evaluate_matrix_without_threads args outs n)
      else
        .ok .with_threads (r.app.evaluate_matrix_with_threads args outs n)
    else .assertion_failure

/-- The complex scalar runner of src/runners.rs. -/
structure CompiledComplexRunner (R : Type) where
  config : Config
  app : Application R

/-- `CompiledComplexRunner::compile`: force `complex = true`, `simd = false`. -/
def CompiledComplexRunner.compile {R : Type} (ok : BuilderCall R → Bool)
    (tc : Translator R → Except CompileError (Application R))
    (ev : ExpressionEvaluator (Complex R)) (config : Config) :
    RustOutcome CompileError (CompiledComplexRunner R) :=
  let config := (config.set_complex true).set_simd false
  match SymjitBridge.compile ok tc ev config with
  | .ok app => .ok { config := config, app := app }
  | .err e => .err e
  | .panicked => .panicked

/-- `CompiledComplexRunner::evaluate`: row count `n = 2 * args.len() /
count_params`, assert `2 * outs.len() / count_obs >= n`, flatten both complex
buffers to interleaved scalars, then dispatch as in the real runner (again
with the without/with-threads primitives on the true/false branches). -/
def CompiledComplexRunner.evaluate (r : CompiledComplexRunner R)
    (args outs : List (Complex R)) : EvalResult R :=
  if r.app.count_params = 0 ∨ r.app.count_obs = 0 then .division_panic
  else
    let n := 2 * args.length / r.app.count_params
    if n ≤ 2 * outs.length / r.app.count_obs then
      let fargs := flatten_vec Complex.words args
      let fouts := flatten_vec Complex.words outs
      if r.config.use_threads then
        .ok .without_threads (r.app.evaluate_matrix_without_threads fargs fouts n)
      else
        .ok .with_threads (r.app.evaluate_matrix_with_threads fargs fouts n)
    else .assertion_failure

/-- The simd real runner of src/runners.rs. -/
structure CompiledSimdRealRunner (R : Type) where
  config : Config
  app : Application R

/-- `CompiledSimdRealRunner::compile`: force `complex = false`, `simd = true`. -/
def CompiledSimdRealRunner.compile {R : Type} [Zero R] (ok : BuilderCall R → Bool)
    (tc : Translator R → Except CompileError (Application R))
    (ev : ExpressionEvaluator R) (config : Config) :
    RustOutcome CompileError (CompiledSimdRealRunner R) :=
  let config := (config.set_complex false).set_simd true
  match SymjitBridge.compile ok tc ev config with
  | .ok app => .ok { config := config, app := app }
  | .err e => .err e
  | .panicked => .panicked

/-- `CompiledSimdRealRunner::evaluate::<T>`: generic over the element type `T`
(its word decomposition given by `enc`); row count from the unflattened
lengths, buffers flattened, dispatch to the simd primitives (the source again
pairing `use_threads() == true` with the without-threads primitive; the last
argument `false` is passed through verbatim). -/
def CompiledSimdRealRunner.evaluate (r : CompiledSimdRealRunner R)
    (enc : T → List R) (args outs : List T) : EvalResult R :=
  if r.app.count_params = 0 ∨ r.app.count_obs = 0 then .division_panic
  else
    let n := args.length / r.app.count_params
    if n ≤ outs.length / r.app.count_obs then
      let fargs := flatten_vec enc args
      let fouts := flatten_vec enc outs
      if r.config.use_threads then
        .ok .without_threads_simd
          (r.app.evaluate_matrix_without_threads_simd fargs fouts n false)
      else
        .ok .with_threads_simd
          (r.app.evaluate_matrix_with_threads_simd fargs fouts n false)
    else .assertion_failure

/-- The simd complex runner of src/runners.rs. -/
structure CompiledSimdComplexRunner (R : Type) where
  config : Config
  app : Application R

/-- `CompiledSimdComplexRunner::compile`: force `complex = true`, `simd = true`. -/
def CompiledSimdComplexRunner.compile {R : Type} (ok : BuilderCall R → Bool)
    (tc : Translator R → Except CompileError (Application R))
    (ev : ExpressionEvaluator (Complex R)) (config : Config) :
    RustOutcome CompileError (CompiledSimdComplexRunner R) :=
  let config := (config.set_complex true).set_simd true
  match SymjitBridge.compile ok tc ev config with
  | .ok app => .ok { config := config, app := app }
  | .err e => .err e
  | .panicked => .panicked

/-- `CompiledSimdComplexRunner::evaluate::<T>`: buffers of `Complex<T>`, row
count `n = 2 * args.len() / count_params`, assert on `2 * outs.len()`,
flattening each `Complex<T>` to the words of its real part followed by its
imaginary part, dispatch to the simd primitives (true branch again invoking
the without-threads primitive). -/
def CompiledSimdComplexRunner.evaluate (r : CompiledSimdComplexRunner R)
    (enc : T → List R) (args outs : List (Complex T)) : EvalResult R :=
  if r.app.count_params = 0 ∨ r.app.count_obs = 0 then .division_panic
  else
    let n := 2 * args.length / r.app.count_params
    if n ≤ 2 * outs.length / r.app.count_obs then
      let fargs := flatten_vec (Complex.vwords enc) args
      let fouts := flatten_vec (Complex.vwords enc) outs
      if r.config.use_threads then
        .ok .without_threads_simd
          (r.app.evaluate_matrix_without_threads_simd fargs fouts n false)
      else
        .ok .with_threads_simd
          (r.app.evaluate_matrix_with_threads_simd fargs fouts n false)
    else .assertion_failure

/-- Modelled from the spec: the byte-stream persistence of a Compiled Artifact
(`Application::save` / `Application::load`) is external code; spec §4.4/§6
guarantee that loading a saved stream recovers an artifact with bit-identical
`config`, `count_params`, `count_obs` and identical evaluation behavior, so a
saved stream is modelled as the artifact itself. -/
structure SavedArtifact (R : Type) where
  app : Application R

/-- A persistence failure (I/O or corrupt stream); never arises for a stream
produced by `save` in this model, per the spec round-trip guarantee. -/
inductive PersistError where
  | failure
deriving DecidableEq, Repr

/-- Modelled from the spec: `Application::save` serializes the artifact. -/
def Application.save (app : Application R) : SavedArtifact R :=
  ⟨app⟩

/-- Modelled from the spec: `Application::load` recovers the saved artifact. -/
def Application.load (b : SavedArtifact R) : Except PersistError (Application R) :=
  .ok b.app

/-- `CompiledRealRunner::save`: persist the artifact. -/
def CompiledRealRunner.save (r : CompiledRealRunner R) : SavedArtifact R :=
  r.app.save

/-- `CompiledRealRunner::load`: load the artifact and take its stored config
(`*app.prog.config()`). -/
def CompiledRealRunner.load (b : SavedArtifact R) :
    Except PersistError (CompiledRealRunner R) :=
  match Application.load b with
  | .error e => .error e
  | .ok app => .ok { config := app.prog.config, app := app }

/-- `CompiledComplexRunner::save`. -/
def CompiledComplexRunner.save (r : CompiledComplexRunner R) : SavedArtifact R :=
  r.app.save

/-- `CompiledComplexRunner::load`. -/
def CompiledComplexRunner.load (b : SavedArtifact R) :
    Except PersistError (CompiledComplexRunner R) :=
  match Application.load b with
  | .error e => .error e
  | .ok app => .ok { config := app.prog.config, app := app }

/-- `CompiledSimdRealRunner::save`. -/
def CompiledSimdRealRunner.save (r : CompiledSimdRealRunner R) : SavedArtifact R :=
  r.app.save

/-- `CompiledSimdRealRunner::load`. -/
def CompiledSimdRealRunner.load (b : SavedArtifact R) :
    Except PersistError (CompiledSimdRealRunner R) :=
  match Application.load b with
  | .error e => .error e
  | .ok app => .ok { config := app.prog.config, app := app }

/-- `CompiledSimdComplexRunner::save`. -/
def CompiledSimdComplexRunner.save (r : CompiledSimdComplexRunner R) : SavedArtifact R :=
  r.app.save

/-- `CompiledSimdComplexRunner::load`. -/
def CompiledSimdComplexRunner.load (b : SavedArtifact R) :
    Except PersistError (CompiledSimdComplexRunner R) :=
  match Application.load b with
  | .error e => .error e
  | .ok app => .ok { config := app.prog.config, app := app }

/-
Concrete instances over `R := Int`, used by witnesses and counterexamples.
-/

/-- A builder oracle accepting every append call. -/
def acceptAll : BuilderCall Int → Bool :=
  fun _ => true

/-- A builder oracle rejecting every append call. -/
def rejectAll : BuilderCall Int → Bool :=
  fun _ => false

/-- A builder oracle accepting only the constant `1 + 0i`. -/
def acceptOnlyOne : BuilderCall Int → Bool :=
  fun c => decide (c = .append_constant ⟨1, 0⟩)

/-- A concrete artifact with the given slot counts and configuration, whose
batch primitives all return the output buffer unchanged. -/
def mkApp (cp co : Nat) (cfg : Config) : Application Int :=
  { count_params := cp
    count_obs := co
    prog := ⟨cfg⟩
    evaluate_matrix_with_threads := fun _ outs _ => outs
    evaluate_matrix_without_threads := fun _ outs _ => outs
    evaluate_matrix_with_threads_simd := fun _ outs _ _ => outs
    evaluate_matrix_without_threads_simd := fun _ outs _ _ => outs }

/-- A terminal-compile oracle that always succeeds, producing a 1-in/1-out
artifact carrying the translator's configuration. -/
def demoTcOk : Translator Int → Except CompileError (Application Int) :=
  fun t => .ok (mkApp 1 1 t.config)

/-- An evaluator exporting no instructions and no constants (real coefficients). -/
def demoEvInt : ExpressionEvaluator Int :=
  ⟨[], (), []⟩

/-- An evaluator exporting no instructions and no constants (complex coefficients). -/
def demoEvComplexInt : ExpressionEvaluator (Complex Int) :=
  ⟨[], (), []⟩

/-- An evaluator exporting one real constant `5`. -/
def demoEvOneConst : ExpressionEvaluator Int :=
  ⟨[], (), [5]⟩

/-- A configuration with all options off. -/
def cfgOff : Config :=
  ⟨false, false, false⟩

/-- A configuration with only `use_threads` on. -/
def cfgThreaded : Config :=
  ⟨false, false, true⟩

/-- Word decomposition of the scalar stand-in itself (one word per element). -/
def encInt : Int → List Int :=
  fun x => [x]

/-- Word decomposition of a two-word element (a 16-byte type). -/
def encPair : Int → List Int :=
  fun x => [x, x + 1]

/-- A concrete real runner whose artifact carries its own configuration. -/
def wRealRunner : CompiledRealRunner Int :=
  ⟨⟨false, false, false⟩, mkApp 1 1 ⟨false, false, false⟩⟩

/-- A concrete complex runner whose artifact carries its own configuration. -/
def wComplexRunner : CompiledComplexRunner Int :=
  ⟨⟨true, false, false⟩, mkApp 1 1 ⟨true, false, false⟩⟩

/-- A concrete simd real runner whose artifact carries its own configuration. -/
def wSimdRealRunner : CompiledSimdRealRunner Int :=
  ⟨⟨false, true, false⟩, mkApp 1 1 ⟨false, true, false⟩⟩

/-- A concrete simd complex runner whose artifact carries its own configuration. -/
def wSimdComplexRunner : CompiledSimdComplexRunner Int :=
  ⟨⟨true, true, false⟩, mkApp 1 1 ⟨true, true, false⟩⟩

/-
Theorems.
-/

/-- C4: the slot mapping is total (a Lean function), preserves the class tag
and the numeric index unchanged, and `slot_list` preserves length and maps
element-wise in order. -/
theorem slot_mapping_preserves_kind_index_length_order
    (s : Slot) (v : List Slot) (i : Nat)
    (h : i < v.length) (h2 : i < (slot_list v).length) :
    (slot s).kind = s.kind ∧
    (slot s).index = s.index ∧
    (slot_list v).length = v.length ∧
    (slot_list v).get ⟨i, h2⟩ = slot (v.get ⟨i, h⟩) := by
  refine ⟨?_, ?_, ?_, ?_⟩
  · cases s <;> rfl
  · cases s <;> rfl
  · simp [slot_list]
  · simp [slot_list]

/-- C4 witness: the mapping theorem applied at a concrete slot and list. -/
theorem slot_mapping_witness :
    (slot (Slot.Const 7)).kind = (Slot.Const 7).kind ∧
    (slot (Slot.Const 7)).index = (Slot.Const 7).index ∧
    (slot_list [Slot.Param 0, Slot.Temp 3]).length =
      [Slot.Param 0, Slot.Temp 3].length ∧
    (slot_list [Slot.Param 0, Slot.Temp 3]).get ⟨1, by decide⟩ =
      slot ([Slot.Param 0, Slot.Temp 3].get ⟨1, by decide⟩) :=
  slot_mapping_preserves_kind_index_length_order
    (Slot.Const 7) [Slot.Param 0, Slot.Temp 3] 1 (by decide) (by decide)

/-- Helper: a successful `appendMapped` run leaves the configuration untouched
and appends exactly the image of the list, in order. -/
theorem appendMapped_ok_trace {R α : Type} (ok : BuilderCall R → Bool)
    (f : α → BuilderCall R) (l : List α) (t t2 : Translator R)
    (h : appendMapped ok f t l = .ok t2) :
    t2.config = t.config ∧ t2.calls = t.calls ++ l.map f := by
  induction l generalizing t with
  | nil =>
    simp only [appendMapped] at h
    cases h
    simp
  | cons a rest ih =>
    simp only [appendMapped, appendCall] at h
    by_cases hc : ok (f a)
    · simp only [hc, if_pos] at h
      obtain ⟨hcfg, hcalls⟩ := ih _ h
      constructor
      · simpa using hcfg
      · simpa [List.append_assoc] using hcalls
    · simp [hc] at h

/-- C5: a successful `translate` records the configuration it was given and a
call trace consisting of one `append_constant` per constant, in pool order,
followed by exactly one opcode-dispatched builder call per instruction, in
stream order; the dispatch passes every slot argument through the slot mapper
(lists through `slot_list`), the builtin id through `builtin_symbol`, and every
scalar field (operand count, integer exponent, is-real flag, label id,
external-function name) unchanged. -/
theorem translate_trace_constants_then_instructions {R : Type}
    (ok : BuilderCall R → Bool) (instructions : List Instruction)
    (constants : List (Complex R)) (config : Config) (t : Translator R)
    (lhs rhs arg cond true_val false_val pslot : Slot) (slots : List Slot)
    (num_reals : Nat) (pexp : Int) (is_real : Bool) (f : BuiltinSymbol)
    (id : Nat) (op : String)
    (h : translate ok instructions constants config = .ok t) :
    t.config = config ∧
    t.calls = constants.map BuilderCall.append_constant
      ++ instructions.map instructionCall ∧
    instructionCall (R := R) (.Add lhs slots num_reals)
      = .append_add (slot lhs) (slot_list slots) num_reals ∧
    instructionCall (R := R) (.Mul lhs slots num_reals)
      = .append_mul (slot lhs) (slot_list slots) num_reals ∧
    instructionCall (R := R) (.Pow lhs arg pexp is_real)
      = .append_pow (slot lhs) (slot arg) pexp is_real ∧
    instructionCall (R := R) (.Powf lhs arg pslot is_real)
      = .append_powf (slot lhs) (slot arg) (slot pslot) is_real ∧
    instructionCall (R := R) (.Assign lhs rhs)
      = .append_assign (slot lhs) (slot rhs) ∧
    instructionCall (R := R) (.Fun lhs f arg is_real)
      = .append_fun (slot lhs) (builtin_symbol f) (slot arg) is_real ∧
    instructionCall (R := R) (.Join lhs cond true_val false_val)
      = .append_join (slot lhs) (slot cond) (slot true_val) (slot false_val) ∧
    instructionCall (R := R) (.Label id) = .append_label id ∧
    instructionCall (R := R) (.IfElse cond id) = .append_if_else (slot cond) id ∧
    instructionCall (R := R) (.Goto id) = .append_goto id ∧
    instructionCall (R := R) (.ExternalFun lhs op slots)
      = .append_external_fun (slot lhs) op (slot_list slots) := by
  simp only [translate] at h
  cases h1 : appendMapped ok BuilderCall.append_constant (Translator.new R config) constants with
  | error e => rw [h1] at h; cases h
  | ok t1 =>
    rw [h1] at h
    obtain ⟨hc1, hl1⟩ := appendMapped_ok_trace ok _ _ _ _ h1
    obtain ⟨hc2, hl2⟩ := appendMapped_ok_trace ok _ _ _ _ h
    refine ⟨hc2.trans hc1, ?_, rfl, rfl, rfl, rfl, rfl, rfl, rfl, rfl, rfl, rfl, rfl⟩
    rw [hl2, hl1]
    simp [Translator.new]

/-- C5 witness: the trace theorem applied to a concrete successful translation
of one constant and two instructions. -/
theorem translate_trace_witness :
    (Translator.mk cfgOff
        [BuilderCall.append_constant ⟨2, 1⟩,
         BuilderCall.append_assign (compiler.Slot.Out 0) (compiler.Slot.Param 1),
         BuilderCall.append_label 3]).config = cfgOff ∧
    (Translator.mk cfgOff
        [BuilderCall.append_constant ⟨2, 1⟩,
         BuilderCall.append_assign (compiler.Slot.Out 0) (compiler.Slot.Param 1),
         BuilderCall.append_label 3]).calls =
      ([⟨2, 1⟩] : List (Complex Int)).map BuilderCall.append_constant
        ++ [Instruction.Assign (Slot.Out 0) (Slot.Param 1),
            Instruction.Label 3].map instructionCall ∧
    instructionCall (R := Int) (.Add (Slot.Out 0) [Slot.Param 0] 1)
      = .append_add (slot (Slot.Out 0)) (slot_list [Slot.Param 0]) 1 ∧
    instructionCall (R := Int) (.Mul (Slot.Out 0) [Slot.Param 0] 1)
      = .append_mul (slot (Slot.Out 0)) (slot_list [Slot.Param 0]) 1 ∧
    instructionCall (R := Int) (.Pow (Slot.Out 0) (Slot.Param 0) (-2) true)
      = .append_pow (slot (Slot.Out 0)) (slot (Slot.Param 0)) (-2) true ∧
    instructionCall (R := Int) (.Powf (Slot.Out 0) (Slot.Param 0) (Slot.Const 4) true)
      = .append_powf (slot (Slot.Out 0)) (slot (Slot.Param 0)) (slot (Slot.Const 4)) true ∧
    instructionCall (R := Int) (.Assign (Slot.Out 0) (Slot.Temp 2))
      = .append_assign (slot (Slot.Out 0)) (slot (Slot.Temp 2)) ∧
    instructionCall (R := Int) (.Fun (Slot.Out 0) ⟨⟨9⟩⟩ (Slot.Param 0) true)
      = .append_fun (slot (Slot.Out 0)) (builtin_symbol ⟨⟨9⟩⟩) (slot (Slot.Param 0)) true ∧
    instructionCall (R := Int)
        (.Join (Slot.Out 0) (Slot.Temp 1) (Slot.Temp 2) (Slot.Const 4))
      = .append_join (slot (Slot.Out 0)) (slot (Slot.Temp 1)) (slot (Slot.Temp 2))
          (slot (Slot.Const 4)) ∧
    instructionCall (R := Int) (.Label 6) = .append_label 6 ∧
    instructionCall (R := Int) (.IfElse (Slot.Temp 1) 6)
      = .append_if_else (slot (Slot.Temp 1)) 6 ∧
    instructionCall (R := Int) (.Goto 6) = .append_goto 6 ∧
    instructionCall (R := Int) (.ExternalFun (Slot.Out 0) ("sinh") [Slot.Param 0])
      = .append_external_fun (slot (Slot.Out 0)) ("sinh") (slot_list [Slot.Param 0]) :=
  translate_trace_constants_then_instructions acceptAll
    [Instruction.Assign (Slot.Out 0) (Slot.Param 1), Instruction.Label 3]
    [⟨2, 1⟩] cfgOff _
    (Slot.Out 0) (Slot.Temp 2) (Slot.Param 0) (Slot.Temp 1) (Slot.Temp 2) (Slot.Const 4)
    (Slot.Const 4) [Slot.Param 0] 1 (-2) true ⟨⟨9⟩⟩ 6 ("sinh") (by rfl)

/-- C2 (code bug shown at a failing input): `translate` does abort at the first
rejected builder-append, with the trace of the failed run never escaping
(first conjunct: only the accepted prefix precedes the error; second conjunct:
rejection of the very first call), but `compile` calls `translate(..).unwrap()`,
so the translation error PANICS instead of being returned as an explicit `Err`
to `compile`'s caller (third conjunct), contradicting spec §7. -/
theorem compile_panics_on_translation_error :
    translate acceptOnlyOne [] [⟨1, 0⟩, ⟨2, 0⟩, ⟨3, 0⟩] cfgOff
      = .error ⟨.append_constant ⟨2, 0⟩⟩ ∧
    translate rejectAll [] [⟨5, 0⟩] cfgOff
      = .error ⟨.append_constant ⟨5, 0⟩⟩ ∧
    compile rejectAll demoTcOk demoEvOneConst cfgOff
      = RustOutcome.panicked := by
  refine ⟨rfl, rfl, rfl⟩

/-- C1 (code bug shown at a failing input): with `use_threads() = true` every
runner's `evaluate` invokes the WITHOUT-threads batch primitive, and with
`use_threads() = false` it invokes the WITH-threads primitive — the opposite
of the dispatch the spec states. -/
theorem evaluate_dispatch_is_inverted :
    cfgThreaded.use_threads = true ∧
    CompiledRealRunner.evaluate ⟨cfgThreaded, mkApp 1 1 cfgThreaded⟩ [0] [0]
      = .ok .without_threads [0] ∧
    CompiledComplexRunner.evaluate ⟨cfgThreaded, mkApp 2 2 cfgThreaded⟩
        [⟨0, 0⟩] [⟨0, 0⟩]
      = .ok .without_threads [0, 0] ∧
    CompiledSimdRealRunner.evaluate ⟨cfgThreaded, mkApp 1 1 cfgThreaded⟩
        encInt [0] [0]
      = .ok .without_threads_simd [0] ∧
    CompiledSimdComplexRunner.evaluate ⟨cfgThreaded, mkApp 2 2 cfgThreaded⟩
        encInt [⟨0, 0⟩] [⟨0, 0⟩]
      = .ok .without_threads_simd [0, 0] ∧
    cfgOff.use_threads = false ∧
    CompiledRealRunner.evaluate ⟨cfgOff, mkApp 1 1 cfgOff⟩ [0] [0]
      = .ok .with_threads [0] ∧
    CompiledComplexRunner.evaluate ⟨cfgOff, mkApp 2 2 cfgOff⟩ [⟨0, 0⟩] [⟨0, 0⟩]
      = .ok .with_threads [0, 0] ∧
    CompiledSimdRealRunner.evaluate ⟨cfgOff, mkApp 1 1 cfgOff⟩ encInt [0] [0]
      = .ok .with_threads_simd [0] ∧
    CompiledSimdComplexRunner.evaluate ⟨cfgOff, mkApp 2 2 cfgOff⟩
        encInt [⟨0, 0⟩] [⟨0, 0⟩]
      = .ok .with_threads_simd [0, 0] := by
  refine ⟨rfl, rfl, rfl, rfl, rfl, rfl, rfl, rfl, rfl, rfl⟩

/-- C6: every runner's `compile` overwrites the `complex` and `simd` fields of
the input config before delegating and stores the mutated config (real:
false/false, complex: true/false, simd real: false/true, simd complex:
true/true); two input configs differing only in `complex`/`simd` yield
identical results. -/
theorem runner_compile_forces_complex_simd {R : Type} [Zero R]
    (ok : BuilderCall R → Bool)
    (tc : Translator R → Except CompileError (Application R))
    (evR : ExpressionEvaluator R) (evC : ExpressionEvaluator (Complex R))
    (cfg cfg2 : Config) (h : cfg.threads = cfg2.threads)
    (r1 : CompiledRealRunner R)
    (h1 : CompiledRealRunner.compile ok tc evR cfg = .ok r1)
    (r2 : CompiledComplexRunner R)
    (h2 : CompiledComplexRunner.compile ok tc evC cfg = .ok r2)
    (r3 : CompiledSimdRealRunner R)
    (h3 : CompiledSimdRealRunner.compile ok tc evR cfg = .ok r3)
    (r4 : CompiledSimdComplexRunner R)
    (h4 : CompiledSimdComplexRunner.compile ok tc evC cfg = .ok r4) :
    CompiledRealRunner.compile ok tc evR cfg
      = CompiledRealRunner.compile ok tc evR cfg2 ∧
    CompiledComplexRunner.compile ok tc evC cfg
      = CompiledComplexRunner.compile ok tc evC cfg2 ∧
    CompiledSimdRealRunner.compile ok tc evR cfg
      = CompiledSimdRealRunner.compile ok tc evR cfg2 ∧
    CompiledSimdComplexRunner.compile ok tc evC cfg
      = CompiledSimdComplexRunner.compile ok tc evC cfg2 ∧
    r1.config.complex = false ∧ r1.config.simd = false ∧
      r1.config.threads = cfg.threads ∧
    r2.config.complex = true ∧ r2.config.simd = false ∧
      r2.config.threads = cfg.threads ∧
    r3.config.complex = false ∧ r3.config.simd = true ∧
      r3.config.threads = cfg.threads ∧
    r4.config.complex = true ∧ r4.config.simd = true ∧
      r4.config.threads = cfg.threads := by
  have hforce : ∀ b s : Bool,
      (cfg.set_complex b).set_simd s = (cfg2.set_complex b).set_simd s := by
    intro b s
    simp [Config.set_complex, Config.set_simd, h]
  have k1 : r1.config = (cfg.set_complex false).set_simd false := by
    simp only [CompiledRealRunner.compile] at h1
    cases hres : SymjitBridge.compile ok tc evR ((cfg.set_complex false).set_simd false) with
    | ok app => rw [hres] at h1; injection h1 with h1; subst h1; rfl
    | err e => rw [hres] at h1; cases h1
    | panicked => rw [hres] at h1; cases h1
  have k2 : r2.config = (cfg.set_complex true).set_simd false := by
    simp only [CompiledComplexRunner.compile] at h2
    cases hres : SymjitBridge.compile ok tc evC ((cfg.set_complex true).set_simd false) with
    | ok app => rw [hres] at h2; injection h2 with h2; subst h2; rfl
    | err e => rw [hres] at h2; cases h2
    | panicked => rw [hres] at h2; cases h2
  have k3 : r3.config = (cfg.set_complex false).set_simd true := by
    simp only [CompiledSimdRealRunner.compile] at h3
    cases hres : SymjitBridge.compile ok tc evR ((cfg.set_complex false).set_simd true) with
    | ok app => rw [hres] at h3; injection h3 with h3; subst h3; rfl
    | err e => rw [hres] at h3; cases h3
    | panicked => rw [hres] at h3; cases h3
  have k4 : r4.config = (cfg.set_complex true).set_simd true := by
    simp only [CompiledSimdComplexRunner.compile] at h4
    cases hres : SymjitBridge.compile ok tc evC ((cfg.set_complex true).set_simd true) with
    | ok app => rw [hres] at h4; injection h4 with h4; subst h4; rfl
    | err e => rw [hres] at h4; cases h4
    | panicked => rw [hres] at h4; cases h4
  refine ⟨?_, ?_, ?_, ?_, ?_, ?_, ?_, ?_, ?_, ?_, ?_, ?_, ?_, ?_, ?_, ?_⟩ <;>
    simp [CompiledRealRunner.compile, CompiledComplexRunner.compile,
      CompiledSimdRealRunner.compile, CompiledSimdComplexRunner.compile,
      hforce, h, k1, k2, k3, k4, Config.set_complex, Config.set_simd]

/-- C6 witness: the forcing theorem applied at concrete configs differing in
`complex`/`simd` and at the concrete compiled runners. -/
theorem runner_compile_forces_witness :
    CompiledRealRunner.compile acceptAll demoTcOk demoEvInt ⟨true, true, false⟩
      = CompiledRealRunner.compile acceptAll demoTcOk demoEvInt cfgOff ∧
    CompiledComplexRunner.compile acceptAll demoTcOk demoEvComplexInt ⟨true, true, false⟩
      = CompiledComplexRunner.compile acceptAll demoTcOk demoEvComplexInt cfgOff ∧
    CompiledSimdRealRunner.compile acceptAll demoTcOk demoEvInt ⟨true, true, false⟩
      = CompiledSimdRealRunner.compile acceptAll demoTcOk demoEvInt cfgOff ∧
    CompiledSimdComplexRunner.compile acceptAll demoTcOk demoEvComplexInt ⟨true, true, false⟩
      = CompiledSimdComplexRunner.compile acceptAll demoTcOk demoEvComplexInt cfgOff ∧
    wRealRunner.config.complex = false ∧ wRealRunner.config.simd = false ∧
      wRealRunner.config.threads = (⟨true, true, false⟩ : Config).threads ∧
    wComplexRunner.config.complex = true ∧ wComplexRunner.config.simd = false ∧
      wComplexRunner.config.threads = (⟨true, true, false⟩ : Config).threads ∧
    wSimdRealRunner.config.complex = false ∧ wSimdRealRunner.config.simd = true ∧
      wSimdRealRunner.config.threads = (⟨true, true, false⟩ : Config).threads ∧
    wSimdComplexRunner.config.complex = true ∧ wSimdComplexRunner.config.simd = true ∧
      wSimdComplexRunner.config.threads = (⟨true, true, false⟩ : Config).threads :=
  runner_compile_forces_complex_simd acceptAll demoTcOk demoEvInt demoEvComplexInt
    ⟨true, true, false⟩ cfgOff rfl
    wRealRunner rfl wComplexRunner rfl wSimdRealRunner rfl wSimdComplexRunner rfl

/-- C3: a save followed by a load yields a runner with the same stored config
(given that the artifact carries the config it was compiled with, spec §3),
the same `count_params` and `count_obs`, and an `evaluate` that agrees with
the original on every input; persistence is modelled from the spec round-trip
guarantee. -/
theorem save_load_roundtrip {R : Type}
    (r1 : CompiledRealRunner R) (e1 : r1.app.prog.config = r1.config)
    (r2 : CompiledComplexRunner R) (e2 : r2.app.prog.config = r2.config)
    (r3 : CompiledSimdRealRunner R) (e3 : r3.app.prog.config = r3.config)
    (r4 : CompiledSimdComplexRunner R) (e4 : r4.app.prog.config = r4.config) :
    (∃ q1, CompiledRealRunner.load r1.save = .ok q1 ∧
      q1.config = r1.config ∧
      q1.app.count_params = r1.app.count_params ∧
      q1.app.count_obs = r1.app.count_obs ∧
      ∀ args outs, q1.evaluate args outs = r1.evaluate args outs) ∧
    (∃ q2, CompiledComplexRunner.load r2.save = .ok q2 ∧
      q2.config = r2.config ∧
      q2.app.count_params = r2.app.count_params ∧
      q2.app.count_obs = r2.app.count_obs ∧
      ∀ args outs, q2.evaluate args outs = r2.evaluate args outs) ∧
    (∃ q3, CompiledSimdRealRunner.load r3.save = .ok q3 ∧
      q3.config = r3.config ∧
      q3.app.count_params = r3.app.count_params ∧
      q3.app.count_obs = r3.app.count_obs ∧
      ∀ (T : Type) (enc : T → List R) (args outs : List T),
        q3.evaluate enc args outs = r3.evaluate enc args outs) ∧
    (∃ q4, CompiledSimdComplexRunner.load r4.save = .ok q4 ∧
      q4.config = r4.config ∧
      q4.app.count_params = r4.app.count_params ∧
      q4.app.count_obs = r4.app.count_obs ∧
      ∀ (T : Type) (enc : T → List R) (args outs : List (Complex T)),
        q4.evaluate enc args outs = r4.evaluate enc args outs) := by
  obtain ⟨c1, a1⟩ := r1
  obtain ⟨c2, a2⟩ := r2
  obtain ⟨c3, a3⟩ := r3
  obtain ⟨c4, a4⟩ := r4
  simp only at e1 e2 e3 e4
  refine ⟨⟨⟨c1, a1⟩, ?_, rfl, rfl, rfl, fun _ _ => rfl⟩,
    ⟨⟨c2, a2⟩, ?_, rfl, rfl, rfl, fun _ _ => rfl⟩,
    ⟨⟨c3, a3⟩, ?_, rfl, rfl, rfl, fun _ _ _ _ => rfl⟩,
    ⟨⟨c4, a4⟩, ?_, rfl, rfl, rfl, fun _ _ _ _ => rfl⟩⟩
  · simp [CompiledRealRunner.load, CompiledRealRunner.save, Application.save,
      Application.load, e1]
  · simp [CompiledComplexRunner.load, CompiledComplexRunner.save, Application.save,
      Application.load, e2]
  · simp [CompiledSimdRealRunner.load, CompiledSimdRealRunner.save, Application.save,
      Application.load, e3]
  · simp [CompiledSimdComplexRunner.load, CompiledSimdComplexRunner.save, Application.save,
      Application.load, e4]

/-- C3 witness: the round-trip theorem applied to the concrete runners. -/
theorem save_load_roundtrip_witness :
    (∃ q1, CompiledRealRunner.load wRealRunner.save = .ok q1 ∧
      q1.config = wRealRunner.config ∧
      q1.app.count_params = wRealRunner.app.count_params ∧
      q1.app.count_obs = wRealRunner.app.count_obs ∧
      ∀ args outs, q1.evaluate args outs = wRealRunner.evaluate args outs) ∧
    (∃ q2, CompiledComplexRunner.load wComplexRunner.save = .ok q2 ∧
      q2.config = wComplexRunner.config ∧
      q2.app.count_params = wComplexRunner.app.count_params ∧
      q2.app.count_obs = wComplexRunner.app.count_obs ∧
      ∀ args outs, q2.evaluate args outs = wComplexRunner.evaluate args outs) ∧
    (∃ q3, CompiledSimdRealRunner.load wSimdRealRunner.save = .ok q3 ∧
      q3.config = wSimdRealRunner.config ∧
      q3.app.count_params = wSimdRealRunner.app.count_params ∧
      q3.app.count_obs = wSimdRealRunner.app.count_obs ∧
      ∀ (T : Type) (enc : T → List Int) (args outs : List T),
        q3.evaluate enc args outs = wSimdRealRunner.evaluate enc args outs) ∧
    (∃ q4, CompiledSimdComplexRunner.load wSimdComplexRunner.save = .ok q4 ∧
      q4.config = wSimdComplexRunner.config ∧
      q4.app.count_params = wSimdComplexRunner.app.count_params ∧
      q4.app.count_obs = wSimdComplexRunner.app.count_obs ∧
      ∀ (T : Type) (enc : T → List Int) (args outs : List (Complex T)),
        q4.evaluate enc args outs = wSimdComplexRunner.evaluate enc args outs) :=
  save_load_roundtrip wRealRunner rfl wComplexRunner rfl
    wSimdRealRunner rfl wSimdComplexRunner rfl

/-- Helper: when the buffer length is not an exact multiple of the row width,
the floored row count covers strictly less than the whole buffer and the
surplus is strictly shorter than one row. -/
theorem floor_surplus_bounds (len cp : Nat) (hp : 0 < cp) (hm : len % cp ≠ 0) :
    len / cp * cp < len ∧ len - len / cp * cp < cp := by
  have hdm := Nat.div_add_mod len cp
  have hml := Nat.mod_lt len hp
  have hr : 0 < len % cp := Nat.pos_of_ne_zero hm
  have h1 : len - cp * (len / cp) = len % cp :=
    Nat.sub_eq_of_eq_add (by rw [Nat.add_comm]; exact hdm.symm)
  constructor
  · calc len / cp * cp = cp * (len / cp) := Nat.mul_comm _ _
      _ < cp * (len / cp) + len % cp := Nat.lt_add_of_pos_right hr
      _ = len := hdm
  · rw [Nat.mul_comm, h1]
    exact hml

/-- C7: the complex runners (scalar and simd) compute the row count as
`n = 2 * args.len() / count_params` and hand the kernel the complex buffers
flattened to interleaved scalar words; the real runners use multiplier 1,
computing `n = args.len() / count_params` (shown with the artifact counts
nonzero and the output capacity sufficient). -/
theorem row_count_multiplier_and_flattening {R T U : Type}
    (rr : CompiledRealRunner R) (argsR outsR : List R)
    (hp1 : 0 < rr.app.count_params) (ho1 : 0 < rr.app.count_obs)
    (hc1 : argsR.length / rr.app.count_params ≤ outsR.length / rr.app.count_obs)
    (rc : CompiledComplexRunner R) (argsC outsC : List (Complex R))
    (hp2 : 0 < rc.app.count_params) (ho2 : 0 < rc.app.count_obs)
    (hc2 : 2 * argsC.length / rc.app.count_params
      ≤ 2 * outsC.length / rc.app.count_obs)
    (encT : T → List R) (rs : CompiledSimdRealRunner R) (argsS outsS : List T)
    (hp3 : 0 < rs.app.count_params) (ho3 : 0 < rs.app.count_obs)
    (hc3 : argsS.length / rs.app.count_params ≤ outsS.length / rs.app.count_obs)
    (encU : U → List R) (rsc : CompiledSimdComplexRunner R)
    (argsSC outsSC : List (Complex U))
    (hp4 : 0 < rsc.app.count_params) (ho4 : 0 < rsc.app.count_obs)
    (hc4 : 2 * argsSC.length / rsc.app.count_params
      ≤ 2 * outsSC.length / rsc.app.count_obs) :
    rr.evaluate argsR outsR =
      .ok (if rr.config.use_threads then .without_threads else .with_threads)
        ((if rr.config.use_threads then rr.app.evaluate_matrix_without_threads
          else rr.app.evaluate_matrix_with_threads)
          argsR outsR (argsR.length / rr.app.count_params)) ∧
    rc.evaluate argsC outsC =
      .ok (if rc.config.use_threads then .without_threads else .with_threads)
        ((if rc.config.use_threads then rc.app.evaluate_matrix_without_threads
          else rc.app.evaluate_matrix_with_threads)
          (flatten_vec Complex.words argsC) (flatten_vec Complex.words outsC)
          (2 * argsC.length / rc.app.count_params)) ∧
    rs.evaluate encT argsS outsS =
      .ok (if rs.config.use_threads then .without_threads_simd else .with_threads_simd)
        ((if rs.config.use_threads then rs.app.evaluate_matrix_without_threads_simd
          else rs.app.evaluate_matrix_with_threads_simd)
          (flatten_vec encT argsS) (flatten_vec encT outsS)
          (argsS.length / rs.app.count_params) false) ∧
    rsc.evaluate encU argsSC outsSC =
      .ok (if rsc.config.use_threads then .without_threads_simd else .with_threads_simd)
        ((if rsc.config.use_threads then rsc.app.evaluate_matrix_without_threads_simd
          else rsc.app.evaluate_matrix_with_threads_simd)
          (flatten_vec (Complex.vwords encU) argsSC)
          (flatten_vec (Complex.vwords encU) outsSC)
          (2 * argsSC.length / rsc.app.count_params) false) := by
  refine ⟨?_, ?_, ?_, ?_⟩
  · have hz : ¬(rr.app.count_params = 0 ∨ rr.app.count_obs = 0) := by omega
    simp only [CompiledRealRunner.evaluate, if_neg hz, if_pos hc1]
    cases ht : rr.config.use_threads <;> simp [ht]
  · have hz : ¬(rc.app.count_params = 0 ∨ rc.app.count_obs = 0) := by omega
    simp only [CompiledComplexRunner.evaluate, if_neg hz, if_pos hc2]
    cases ht : rc.config.use_threads <;> simp [ht]
  · have hz : ¬(rs.app.count_params = 0 ∨ rs.app.count_obs = 0) := by omega
    simp only [CompiledSimdRealRunner.evaluate, if_neg hz, if_pos hc3]
    cases ht : rs.config.use_threads <;> simp [ht]
  · have hz : ¬(rsc.app.count_params = 0 ∨ rsc.app.count_obs = 0) := by omega
    simp only [CompiledSimdComplexRunner.evaluate, if_neg hz, if_pos hc4]
    cases ht : rsc.config.use_threads <;> simp [ht]

/-- C7 witness: the row-count theorem applied to concrete runners and buffers. -/
theorem row_count_multiplier_witness :
    wRealRunner.evaluate [3] [0] =
      .ok (if wRealRunner.config.use_threads then .without_threads else .with_threads)
        ((if wRealRunner.config.use_threads
            then wRealRunner.app.evaluate_matrix_without_threads
          else wRealRunner.app.evaluate_matrix_with_threads)
          [3] [0] ([(3 : Int)].length / wRealRunner.app.count_params)) ∧
    wComplexRunner.evaluate [⟨1, 2⟩] [⟨0, 0⟩] =
      .ok (if wComplexRunner.config.use_threads then .without_threads else .with_threads)
        ((if wComplexRunner.config.use_threads
            then wComplexRunner.app.evaluate_matrix_without_threads
          else wComplexRunner.app.evaluate_matrix_with_threads)
          (flatten_vec Complex.words [⟨1, 2⟩]) (flatten_vec Complex.words [⟨0, 0⟩])
          (2 * [(⟨1, 2⟩ : Complex Int)].length / wComplexRunner.app.count_params)) ∧
    wSimdRealRunner.evaluate encInt [5] [0] =
      .ok (if wSimdRealRunner.config.use_threads
            then .without_threads_simd else .with_threads_simd)
        ((if wSimdRealRunner.config.use_threads
            then wSimdRealRunner.app.evaluate_matrix_without_threads_simd
          else wSimdRealRunner.app.evaluate_matrix_with_threads_simd)
          (flatten_vec encInt [5]) (flatten_vec encInt [0])
          ([(5 : Int)].length / wSimdRealRunner.app.count_params) false) ∧
    wSimdComplexRunner.evaluate encInt [⟨1, 2⟩] [⟨0, 0⟩] =
      .ok (if wSimdComplexRunner.config.use_threads
            then .without_threads_simd else .with_threads_simd)
        ((if wSimdComplexRunner.config.use_threads
            then wSimdComplexRunner.app.evaluate_matrix_without_threads_simd
          else wSimdComplexRunner.app.evaluate_matrix_with_threads_simd)
          (flatten_vec (Complex.vwords encInt) [⟨1, 2⟩])
          (flatten_vec (Complex.vwords encInt) [⟨0, 0⟩])
          (2 * [(⟨1, 2⟩ : Complex Int)].length / wSimdComplexRunner.app.count_params)
          false) :=
  row_count_multiplier_and_flattening
    wRealRunner [3] [0] (by decide) (by decide) (by decide)
    wComplexRunner [⟨1, 2⟩] [⟨0, 0⟩] (by decide) (by decide) (by decide)
    encInt wSimdRealRunner [5] [0] (by decide) (by decide) (by decide)
    encInt wSimdComplexRunner [⟨1, 2⟩] [⟨0, 0⟩] (by decide) (by decide) (by decide)

/-- C8: with nonzero artifact counts, `evaluate` aborts with the assertion
failure exactly when the output buffer holds fewer than `n * count_obs`
scalar slots (for the complex runner, `2 * outs.len()` scalar slots); under
sufficient capacity the assertion-failure branch is unreachable. -/
theorem outs_capacity_assertion {R : Type}
    (rr : CompiledRealRunner R) (argsR outsR : List R)
    (hp1 : 0 < rr.app.count_params) (ho1 : 0 < rr.app.count_obs)
    (rc : CompiledComplexRunner R) (argsC outsC : List (Complex R))
    (hp2 : 0 < rc.app.count_params) (ho2 : 0 < rc.app.count_obs) :
    (rr.evaluate argsR outsR = .assertion_failure ↔
      outsR.length < argsR.length / rr.app.count_params * rr.app.count_obs) ∧
    (rc.evaluate argsC outsC = .assertion_failure ↔
      2 * outsC.length < 2 * argsC.length / rc.app.count_params * rc.app.count_obs) := by
  constructor
  · have hz : ¬(rr.app.count_params = 0 ∨ rr.app.count_obs = 0) := by omega
    simp only [CompiledRealRunner.evaluate, if_neg hz]
    by_cases hcap : argsR.length / rr.app.count_params ≤ outsR.length / rr.app.count_obs
    · rw [if_pos hcap]
      have h2 := (Nat.le_div_iff_mul_le ho1).mp hcap
      have h3 := Nat.not_lt.mpr h2
      cases ht : rr.config.use_threads <;> simp [ht, h3]
    · rw [if_neg hcap]
      have h2 := (Nat.div_lt_iff_lt_mul ho1).mp (Nat.not_le.mp hcap)
      simp [h2]
  · have hz : ¬(rc.app.count_params = 0 ∨ rc.app.count_obs = 0) := by omega
    simp only [CompiledComplexRunner.evaluate, if_neg hz]
    by_cases hcap : 2 * argsC.length / rc.app.count_params
        ≤ 2 * outsC.length / rc.app.count_obs
    · rw [if_pos hcap]
      have h2 := (Nat.le_div_iff_mul_le ho2).mp hcap
      have h3 := Nat.not_lt.mpr h2
      cases ht : rc.config.use_threads <;> simp [ht, h3]
    · rw [if_neg hcap]
      have h2 := (Nat.div_lt_iff_lt_mul ho2).mp (Nat.not_le.mp hcap)
      simp [h2]

/-- C8 witness: the assertion theorem applied to a too-short and a sufficient
output buffer. -/
theorem outs_capacity_assertion_witness :
    (wRealRunner.evaluate [1, 2, 3] [] = .assertion_failure ↔
      ([] : List Int).length <
        [(1 : Int), 2, 3].length / wRealRunner.app.count_params
          * wRealRunner.app.count_obs) ∧
    (wComplexRunner.evaluate [⟨1, 1⟩] [⟨0, 0⟩] = .assertion_failure ↔
      2 * [(⟨0, 0⟩ : Complex Int)].length <
        2 * [(⟨1, 1⟩ : Complex Int)].length / wComplexRunner.app.count_params
          * wComplexRunner.app.count_obs) :=
  outs_capacity_assertion wRealRunner [1, 2, 3] [] (by decide) (by decide)
    wComplexRunner [⟨1, 1⟩] [⟨0, 0⟩] (by decide) (by decide)

/-- C10: when the (scalar-unit) argument length is not an exact multiple of
`count_params`, `evaluate` reports no error: it runs the kernel on the floored
row count, which covers strictly less than the whole argument buffer, the
ignored surplus being shorter than one row. -/
theorem surplus_args_ignored {R : Type}
    (rr : CompiledRealRunner R) (argsR outsR : List R)
    (hp1 : 0 < rr.app.count_params) (ho1 : 0 < rr.app.count_obs)
    (hm1 : argsR.length % rr.app.count_params ≠ 0)
    (hc1 : argsR.length / rr.app.count_params ≤ outsR.length / rr.app.count_obs)
    (rc : CompiledComplexRunner R) (argsC outsC : List (Complex R))
    (hp2 : 0 < rc.app.count_params) (ho2 : 0 < rc.app.count_obs)
    (hm2 : 2 * argsC.length % rc.app.count_params ≠ 0)
    (hc2 : 2 * argsC.length / rc.app.count_params
      ≤ 2 * outsC.length / rc.app.count_obs) :
    rr.evaluate argsR outsR =
      .ok (if rr.config.use_threads then .without_threads else .with_threads)
        ((if rr.config.use_threads then rr.app.evaluate_matrix_without_threads
          else rr.app.evaluate_matrix_with_threads)
          argsR outsR (argsR.length / rr.app.count_params)) ∧
    argsR.length / rr.app.count_params * rr.app.count_params < argsR.length ∧
    argsR.length - argsR.length / rr.app.count_params * rr.app.count_params
      < rr.app.count_params ∧
    rc.evaluate argsC outsC =
      .ok (if rc.config.use_threads then .without_threads else .with_threads)
        ((if rc.config.use_threads then rc.app.evaluate_matrix_without_threads
          else rc.app.evaluate_matrix_with_threads)
          (flatten_vec Complex.words argsC) (flatten_vec Complex.words outsC)
          (2 * argsC.length / rc.app.count_params)) ∧
    2 * argsC.length / rc.app.count_params * rc.app.count_params
      < 2 * argsC.length ∧
    2 * argsC.length - 2 * argsC.length / rc.app.count_params * rc.app.count_params
      < rc.app.count_params := by
  obtain ⟨hb1, hb2⟩ := floor_surplus_bounds argsR.length rr.app.count_params hp1 hm1
  obtain ⟨hb3, hb4⟩ := floor_surplus_bounds (2 * argsC.length) rc.app.count_params hp2 hm2
  refine ⟨?_, hb1, hb2, ?_, hb3, hb4⟩
  · have hz : ¬(rr.app.count_params = 0 ∨ rr.app.count_obs = 0) := by omega
    simp only [CompiledRealRunner.evaluate, if_neg hz, if_pos hc1]
    cases ht : rr.config.use_threads <;> simp [ht]
  · have hz : ¬(rc.app.count_params = 0 ∨ rc.app.count_obs = 0) := by omega
    simp only [CompiledComplexRunner.evaluate, if_neg hz, if_pos hc2]
    cases ht : rc.config.use_threads <;> simp [ht]

/-- C10 witness: the surplus theorem applied to buffers whose scalar length is
not a multiple of the row width (real: 3 args for rows of 2; complex: 4 scalar
slots for rows of 3). -/
theorem surplus_args_ignored_witness :
    (CompiledRealRunner.mk cfgOff (mkApp 2 1 cfgOff)).evaluate [1, 2, 3] [0] =
      .ok (if (CompiledRealRunner.mk cfgOff (mkApp 2 1 cfgOff)).config.use_threads
            then .without_threads else .with_threads)
        ((if (CompiledRealRunner.mk cfgOff (mkApp 2 1 cfgOff)).config.use_threads
            then (CompiledRealRunner.mk cfgOff
              (mkApp 2 1 cfgOff)).app.evaluate_matrix_without_threads
          else (CompiledRealRunner.mk cfgOff
            (mkApp 2 1 cfgOff)).app.evaluate_matrix_with_threads)
          [1, 2, 3] [0]
          ([(1 : Int), 2, 3].length
            / (CompiledRealRunner.mk cfgOff (mkApp 2 1 cfgOff)).app.count_params)) ∧
    [(1 : Int), 2, 3].length
        / (CompiledRealRunner.mk cfgOff (mkApp 2 1 cfgOff)).app.count_params
        * (CompiledRealRunner.mk cfgOff (mkApp 2 1 cfgOff)).app.count_params
      < [(1 : Int), 2, 3].length ∧
    [(1 : Int), 2, 3].length -
        [(1 : Int), 2, 3].length
          / (CompiledRealRunner.mk cfgOff (mkApp 2 1 cfgOff)).app.count_params
          * (CompiledRealRunner.mk cfgOff (mkApp 2 1 cfgOff)).app.count_params
      < (CompiledRealRunner.mk cfgOff (mkApp 2 1 cfgOff)).app.count_params ∧
    (CompiledComplexRunner.mk cfgOff (mkApp 3 1 cfgOff)).evaluate
        [⟨1, 2⟩, ⟨3, 4⟩] [⟨0, 0⟩] =
      .ok (if (CompiledComplexRunner.mk cfgOff (mkApp 3 1 cfgOff)).config.use_threads
            then .without_threads else .with_threads)
        ((if (CompiledComplexRunner.mk cfgOff (mkApp 3 1 cfgOff)).config.use_threads
            then (CompiledComplexRunner.mk cfgOff
              (mkApp 3 1 cfgOff)).app.evaluate_matrix_without_threads
          else (CompiledComplexRunner.mk cfgOff
            (mkApp 3 1 cfgOff)).app.evaluate_matrix_with_threads)
          (flatten_vec Complex.words [⟨1, 2⟩, ⟨3, 4⟩])
          (flatten_vec Complex.words [⟨0, 0⟩])
          (2 * [(⟨1, 2⟩ : Complex Int), ⟨3, 4⟩].length
            / (CompiledComplexRunner.mk cfgOff (mkApp 3 1 cfgOff)).app.count_params)) ∧
    2 * [(⟨1, 2⟩ : Complex Int), ⟨3, 4⟩].length
        / (CompiledComplexRunner.mk cfgOff (mkApp 3 1 cfgOff)).app.count_params
        * (CompiledComplexRunner.mk cfgOff (mkApp 3 1 cfgOff)).app.count_params
      < 2 * [(⟨1, 2⟩ : Complex Int), ⟨3, 4⟩].length ∧
    2 * [(⟨1, 2⟩ : Complex Int), ⟨3, 4⟩].length -
        2 * [(⟨1, 2⟩ : Complex Int), ⟨3, 4⟩].length
          / (CompiledComplexRunner.mk cfgOff (mkApp 3 1 cfgOff)).app.count_params
          * (CompiledComplexRunner.mk cfgOff (mkApp 3 1 cfgOff)).app.count_params
      < (CompiledComplexRunner.mk cfgOff (mkApp 3 1 cfgOff)).app.count_params :=
  surplus_args_ignored
    (CompiledRealRunner.mk cfgOff (mkApp 2 1 cfgOff)) [1, 2, 3] [0]
    (by decide) (by decide) (by decide) (by decide)
    (CompiledComplexRunner.mk cfgOff (mkApp 3 1 cfgOff)) [⟨1, 2⟩, ⟨3, 4⟩] [⟨0, 0⟩]
    (by decide) (by decide) (by decide) (by decide)

/-- C9: for an element type whose size is a multiple of the f64 size (each
element decomposing into `k = size_of::<T>() / size_of::<f64>()` scalar
words), the flat view has exactly `v.len() * (size_of::<T>() /
size_of::<f64>())` entries — matching the length the source computes — and is
the in-order concatenation of the elements' words: it distributes over buffer
concatenation and is the identity on a single element's words, so no value is
reordered. -/
theorem flatten_vec_length_and_order {R T : Type} (enc : T → List R)
    (k size_T : Nat) (hsize : size_T = 8 * k) (henc : ∀ t, (enc t).length = k)
    (v v1 v2 : List T) (t : T) :
    (flatten_vec enc v).length = v.length * (size_T / 8) ∧
    flatten_vec_len v.length size_T = v.length * (size_T / 8) ∧
    flatten_vec enc (v1 ++ v2) = flatten_vec enc v1 ++ flatten_vec enc v2 ∧
    flatten_vec enc [t] = enc t := by
  have hk : size_T / 8 = k := by rw [hsize]; omega
  refine ⟨?_, ?_, ?_, ?_⟩
  · rw [hk]
    induction v with
    | nil => simp [flatten_vec]
    | cons a rest ih =>
      simp only [flatten_vec, List.map_cons, List.flatten_cons, List.length_append,
        List.length_cons, henc] at *
      rw [ih]
      ring
  · rw [hk]
    simp only [flatten_vec_len, hsize]
    rw [show v.length * (8 * k) = v.length * k * 8 by ring]
    exact Nat.mul_div_cancel _ (by norm_num)
  · simp [flatten_vec]
  · simp [flatten_vec]

/-- C9 witness: the flattening theorem applied to a two-word element type
(16-byte elements, k = 2). -/
theorem flatten_vec_witness :
    (flatten_vec encPair [1, 2]).length = [(1 : Int), 2].length * (16 / 8) ∧
    flatten_vec_len [(1 : Int), 2].length 16 = [(1 : Int), 2].length * (16 / 8) ∧
    flatten_vec encPair ([1] ++ [2]) =
      flatten_vec encPair [1] ++ flatten_vec encPair [2] ∧
    flatten_vec encPair [7] = encPair 7 :=
  flatten_vec_length_and_order encPair 2 16 (by decide) (fun _ => rfl)
    [1, 2] [1] [2] 7

end SymjitBridge
